import Mathlib

/-!
Verification development for the be-more-agent Android voice agent.

Shallow embedding of the orchestration core: conversation-memory
persistence, the action router, the intent detector, the microphone
arbiter of the wake-word service, the interrupt handler, and the
streaming response pipeline of the dialogue state machine.

Strings are modelled as lists of characters. Python string operations
(lower, strip, whitespace classes, regular-expression search) are
modelled over ASCII, which covers every literal the program compares
against. External collaborators (speech synthesis, speech recognition,
the language model, the web-search client, the camera, the standard
JSON parser) are modelled as parameters of an environment record, as
the specification treats them as collaborators behind narrow
interfaces.
-/

set_option maxRecDepth 8192

abbrev Str := List Char

/-- Conversion from a Lean string literal to the character-list model. -/
def lit (s : String) : Str := s.toList

/-- ASCII model of the Python whitespace class used by str.strip and the
regex class backslash-s: space, tab, newline, carriage return, vertical
tab, form feed. -/
def isPyWs (c : Char) : Bool :=
  (c == ' ') || (c == '\t') || (c == '\n') || (c == '\r') ||
  (c == Char.ofNat 11) || (c == Char.ofNat 12)

/-- ASCII model of Python str.lower. -/
def lowerL (s : Str) : Str := s.map Char.toLower

/-- Python str.strip with no arguments: drop whitespace from both ends. -/
def pyStrip (s : Str) : Str :=
  ((s.dropWhile isPyWs).reverse.dropWhile isPyWs).reverse

/-- Python substring test, the binary `in` operator on strings. -/
def isSubOf (needle : Str) : Str → Bool
  | [] => needle.isEmpty
  | c :: rest => needle.isPrefixOf (c :: rest) || isSubOf needle rest

/-- Does the string contain an ASCII alphanumeric character
(the regex class used at main.py lines 573 and 586)? -/
def hasAlnum (s : Str) : Bool := s.any Char.isAlphanum

/-- Does the chunk contain sentence-terminating punctuation or a newline
(main.py line 571)? -/
def hasPunct (s : Str) : Bool :=
  s.any (fun c => (c == '.') || (c == '!') || (c == '?') || (c == '\n'))

/-- Python str.rstrip with the argument "?." used by the intent detector:
drop trailing question marks and periods. -/
def rstripQD (s : Str) : Str :=
  (s.reverse.dropWhile (fun c => (c == '?') || (c == '.'))).reverse

/-- Python str.split with no arguments: split on whitespace runs,
discarding empty pieces. Accumulates the current word reversed. -/
def splitWsAux : Str → Str → List Str
  | [], acc => if acc.isEmpty then [] else [acc.reverse]
  | c :: cs, acc =>
    if isPyWs c then
      if acc.isEmpty then splitWsAux cs [] else acc.reverse :: splitWsAux cs []
    else splitWsAux cs (c :: acc)

def splitWs (s : Str) : List Str := splitWsAux s []

/-- Python's truthiness-based `a or b` on two optional strings
(action_router.py line 21): an empty string counts as falsy. -/
def pyOr (a b : Option Str) : Option Str :=
  match a with
  | some s => if s.isEmpty then b else some s
  | none => b

-- ===========================================================================
-- Data model (spec section 3)
-- ===========================================================================

inductive Role
  | system
  | user
  | assistant
  deriving DecidableEq, Repr

structure Turn where
  role : Role
  content : Str
  deriving DecidableEq, Repr

inductive BotState
  | warmup
  | idle
  | listening
  | thinking
  | speaking
  | error
  | capturing
  deriving DecidableEq, Repr

-- ===========================================================================
-- memory_manager.py
-- ===========================================================================

/-- lib/memory_manager.py, save_chat_history (lines 36-47). The file
system is modelled by the returned value: none when nothing is written,
some l when the JSON list l is written to the memory file. -/
def save_chat_history (permanent_memory session_memory : List Turn) :
    Option (List Turn) :=
  match permanent_memory ++ session_memory with
  | [] => none
  | x :: conv =>
    some (x :: (if 10 < conv.length then conv.drop (conv.length - 10) else conv))

/-- lib/memory_manager.py, load_chat_history (lines 24-33). The stored
file is modelled as: none when the memory file is missing, some none
when it exists but its contents fail to parse, some (some h) when it
parses to the turn list h. Both failure branches fall through to the
single system-prompt turn. -/
def load_chat_history (stored : Option (Option (List Turn)))
    (system_prompt : Str) : List Turn :=
  match stored with
  | some (some history) => history
  | some none => [⟨Role.system, system_prompt⟩]
  | none => [⟨Role.system, system_prompt⟩]

/-- C9: saving history persists exactly the first element of
permanent plus session memory followed by the last min(10, n-1) of the
remaining elements (here written with List.drop: drop (len - 10) keeps
exactly that suffix), so the persisted transcript never exceeds 11
turns and older turns are silently dropped. -/
theorem C9_save_history (permanent_memory session_memory : List Turn)
    (x : Turn) (xs : List Turn)
    (h : permanent_memory ++ session_memory = x :: xs) :
    save_chat_history permanent_memory session_memory
      = some (x :: xs.drop (xs.length - 10))
    ∧ (x :: xs.drop (xs.length - 10)).length ≤ 11 := by
  constructor
  · unfold save_chat_history
    rw [h]
    by_cases hl : 10 < xs.length
    · simp [hl]
    · have h0 : xs.length - 10 = 0 := by omega
      simp [hl, h0]
  · have hd : (xs.drop (xs.length - 10)).length = xs.length - (xs.length - 10) :=
      List.length_drop _ _
    simp only [List.length_cons, hd]
    omega

def turnA : Turn := ⟨Role.system, lit "prompt"⟩
def turnB : Turn := ⟨Role.user, lit "hi"⟩

theorem C9_save_history_witness :
    save_chat_history [turnA] [turnB] = some [turnA, turnB] := by
  have h := C9_save_history [turnA] [turnB] turnA [turnB] rfl
  simpa using h.1

/-- C10: loading history is total — for every system prompt, a missing
memory file (stored = none) or an unparsable one (stored = some none)
yields exactly the one-element list with the system turn; no exception
escapes, as every branch returns a value. -/
theorem C10_load_total (system_prompt : Str) :
    load_chat_history none system_prompt = [⟨Role.system, system_prompt⟩]
    ∧ load_chat_history (some none) system_prompt
        = [⟨Role.system, system_prompt⟩] :=
  ⟨rfl, rfl⟩

-- ===========================================================================
-- Collaborator environment (spec sections 1 and 6)
-- ===========================================================================

/-- A single result row returned by the web-search collaborator. A field
is none when the key is absent; Python dict.get then substitutes the
documented default. Per the collaborator contract of the spec, present
values are strings. -/
structure SearchHit where
  title : Option Str
  body : Option Str
  snippet : Option Str
  deriving Repr

/-- The parsed structured action object consumed by ActionRouter.execute:
a partial map with the keys action, value and query. This is the
ActionRequest shape of the spec data model (string fields). -/
structure ActionData where
  action : Option Str
  value : Option Str
  query : Option Str
  deriving DecidableEq, Repr

/-- Behaviour of the external collaborators for one turn. The language
model, web-search client, camera, clock and standard JSON parser are
out of scope (spec section 1) and enter the embedding only through this
record:
* stream — the token chunks the language model yields for the turn;
* intr — whether the shared interrupt flag is observed set when chunk
  number i is about to be consumed (the cooperative cancellation point);
* summarize — the non-streaming summary completion, given the RESULT
  string and the original user question;
* loads — the standard-library JSON parse applied by extract_json to
  the first-to-last brace span (none models a parse failure; a success
  is projected to the ActionRequest shape the router consumes);
* search_ctor_fails — constructing or entering the search client raised
  (import failure or DDGS construction), caught by the outer handler;
* search_news / search_text — the news and the general text query, each
  either a result list or a raised exception;
* now — the formatted current local time. -/
structure Env where
  system_prompt : Str
  llm_loaded : Bool
  llm_raises : Bool
  stream : List Str
  intr : Nat → Bool
  summarize : Str → Str → Str
  loads : Str → Option ActionData
  now : Str
  search_ctor_fails : Bool
  search_news : Except Unit (List SearchHit)
  search_text : Except Unit (List SearchHit)
  camera_available : Bool
  camera_result : Option Str

-- ===========================================================================
-- action_router.py
-- ===========================================================================

/-- ActionRouter.VALID_TOOLS (action_router.py line 7). -/
def VALID_TOOLS : List Str := [lit "get_time", lit "search_web", lit "capture_image"]

/-- ActionRouter.ALIASES (action_router.py lines 9-17). -/
def ALIASES : List (Str × Str) :=
  [(lit "google", lit "search_web"),
   (lit "browser", lit "search_web"),
   (lit "news", lit "search_web"),
   (lit "search_news", lit "search_web"),
   (lit "look", lit "capture_image"),
   (lit "see", lit "capture_image"),
   (lit "check_time", lit "get_time")]

/-- self.ALIASES.get(raw_action, raw_action) (action_router.py line 22). -/
def resolve_action (raw_action : Str) : Str :=
  (List.lookup raw_action ALIASES).getD raw_action

/-- The successful search payload f-string (action_router.py line 66):
body is truncated to 300 characters; a missing query prints as None. -/
def searchPayload (query : Option Str) (r : SearchHit) : Str :=
  lit "SEARCH RESULTS for " ++
    (lit "\x27" ++ (match query with | some q => q | none => lit "None") ++
     lit "\x27:\nTitle: " ++ r.title.getD (lit "No Title") ++
     lit "\nSnippet: " ++
     (r.body.getD (r.snippet.getD (lit "No Body"))).take 300)

/-- ActionRouter._search_web (action_router.py lines 43-70). The two
query attempts are individually guarded: a raised exception is swallowed
and leaves the result list unchanged (empty). Only a failure outside
those guards — modelled by search_ctor_fails — reaches the outer handler
and yields SEARCH_ERROR. -/
def search_web (env : Env) (query : Option Str) : Str :=
  if env.search_ctor_fails then lit "SEARCH_ERROR"
  else
    let results := match env.search_news with
      | .ok rs => rs
      | .error _ => []
    let results := match results with
      | [] => (match env.search_text with
               | .ok rs => rs
               | .error _ => [])
      | _ => results
    match results with
    | r :: _ => searchPayload query r
    | [] => lit "SEARCH_EMPTY"

/-- ActionRouter.execute (action_router.py lines 19-41). The trailing
Python `return None` (line 41) is modelled by the final none; the
theorems show it is unreachable. -/
def execute (env : Env) (action_data : ActionData) : Option Str :=
  let raw_action := pyStrip (lowerL (action_data.action.getD []))
  let value := pyOr action_data.value action_data.query
  let action := resolve_action raw_action
  if ¬ (action ∈ VALID_TOOLS) then
    match value with
    | some v =>
      if (!v.isEmpty) && 1 < (splitWs v).length then
        some (lit "CHAT_FALLBACK::" ++ v)
      else some (lit "INVALID_ACTION")
    | none => some (lit "INVALID_ACTION")
  else if action = lit "get_time" then
    some (lit "The current time is " ++ (env.now ++ lit "."))
  else if action = lit "search_web" then
    some (search_web env value)
  else if action = lit "capture_image" then
    some (lit "IMAGE_CAPTURE_TRIGGERED")
  else
    none

-- ===========================================================================
-- Helper lemmas
-- ===========================================================================

theorem isPrefixOf_append (l t : Str) : l.isPrefixOf (l ++ t) = true := by
  induction l with
  | nil => simp [List.isPrefixOf]
  | cons c cs ih => simp [List.isPrefixOf, ih]

/-- The six tagged outcomes of the ActionResult data model: ChatFallback,
InvalidAction, ImageCaptureTriggered, SearchEmpty, SearchError, and a
raw result needing summarization (the time sentence or the search
payload). -/
def sixOutcomes (s : Str) : Prop :=
  (lit "CHAT_FALLBACK::").isPrefixOf s = true
  ∨ s = lit "INVALID_ACTION"
  ∨ s = lit "IMAGE_CAPTURE_TRIGGERED"
  ∨ s = lit "SEARCH_EMPTY"
  ∨ s = lit "SEARCH_ERROR"
  ∨ ((lit "The current time is ").isPrefixOf s = true
     ∨ (lit "SEARCH RESULTS for ").isPrefixOf s = true)

/-- search_web can only produce the payload, SEARCH_EMPTY or
SEARCH_ERROR, never any other value (and, being a function, it never
raises). -/
theorem search_web_cases (env : Env) (q : Option Str) :
    search_web env q = lit "SEARCH_ERROR"
    ∨ search_web env q = lit "SEARCH_EMPTY"
    ∨ ∃ r, search_web env q = searchPayload q r := by
  unfold search_web
  by_cases hc : env.search_ctor_fails
  · simp [hc]
  · simp only [hc, if_false, Bool.false_eq_true]
    cases hn : env.search_news with
    | ok rs =>
      cases rs with
      | nil =>
        cases ht : env.search_text with
        | ok ts =>
          cases ts with
          | nil => simp
          | cons r _ => right; right; exact ⟨r, rfl⟩
        | error e => simp
      | cons r _ => right; right; exact ⟨r, rfl⟩
    | error e =>
      cases ht : env.search_text with
      | ok ts =>
        cases ts with
        | nil => simp
        | cons r _ => right; right; exact ⟨r, rfl⟩
      | error e2 => simp

/-- Every value in a lookup table satisfying P makes the get-with-default
either satisfy P or fall back to the key. -/
theorem lookup_getD_cases (P : Str → Prop) (tbl : List (Str × Str))
    (hP : ∀ p ∈ tbl, P p.2) (raw : Str) :
    P ((List.lookup raw tbl).getD raw) ∨ (List.lookup raw tbl).getD raw = raw := by
  induction tbl with
  | nil => right; rfl
  | cons kv rest ih =>
    have hhead : P kv.2 := hP kv (List.mem_cons_self kv rest)
    have hrest : ∀ p ∈ rest, P p.2 := fun p hp => hP p (List.mem_cons_of_mem kv hp)
    cases hbeq : raw == kv.1 with
    | true => left; simpa [List.lookup, hbeq] using hhead
    | false => simpa [List.lookup, hbeq] using ih hrest

/-- A concrete collaborator environment for witnesses: model loaded, no
failures, empty stream, no search results, no camera. -/
def baseEnv : Env :=
  { system_prompt := lit "You are a helpful AI assistant."
    llm_loaded := true
    llm_raises := false
    stream := []
    intr := fun _ => false
    summarize := fun r _ => r
    loads := fun _ => none
    now := lit "10:30 AM"
    search_ctor_fails := false
    search_news := .ok []
    search_text := .ok []
    camera_available := false
    camera_result := none }

/-- C5: the alias table maps every raw action name to one of the three
valid actions or leaves it unchanged (in particular unchanged whenever
it is not an alias key), and execute always returns a value (never the
dead trailing None) that is one of exactly the six defined outcomes. -/
theorem C5_router_outcomes (raw : Str) (env : Env) (action_data : ActionData) :
    (resolve_action raw ∈ VALID_TOOLS ∨ resolve_action raw = raw)
    ∧ (List.lookup raw ALIASES = none → resolve_action raw = raw)
    ∧ ∃ s, execute env action_data = some s ∧ sixOutcomes s := by
  refine ⟨?_, ?_, ?_⟩
  · exact lookup_getD_cases (· ∈ VALID_TOOLS) ALIASES (by decide) raw
  · intro h; simp [resolve_action, h]
  · by_cases hmem :
      resolve_action (pyStrip (lowerL (action_data.action.getD []))) ∈ VALID_TOOLS
    · have h3 : resolve_action (pyStrip (lowerL (action_data.action.getD [])))
          = lit "get_time"
        ∨ resolve_action (pyStrip (lowerL (action_data.action.getD [])))
          = lit "search_web"
        ∨ resolve_action (pyStrip (lowerL (action_data.action.getD [])))
          = lit "capture_image" := by
        simpa [VALID_TOOLS] using hmem
      rcases h3 with h | h | h
      · refine ⟨lit "The current time is " ++ (env.now ++ lit "."), ?_, ?_⟩
        · simp [execute, h, show (lit "get_time" ∈ VALID_TOOLS) from by decide]
        · exact Or.inr (Or.inr (Or.inr (Or.inr (Or.inr (Or.inl
            (isPrefixOf_append _ _))))))
      · refine ⟨search_web env (pyOr action_data.value action_data.query), ?_, ?_⟩
        · simp [execute, h, show (lit "search_web" ∈ VALID_TOOLS) from by decide,
            show ¬(lit "search_web" = lit "get_time") from by decide]
        · rcases search_web_cases env (pyOr action_data.value action_data.query)
            with hs | hs | ⟨r, hs⟩
          · exact Or.inr (Or.inr (Or.inr (Or.inr (Or.inl hs))))
          · exact Or.inr (Or.inr (Or.inr (Or.inl hs)))
          · refine Or.inr (Or.inr (Or.inr (Or.inr (Or.inr (Or.inr ?_)))))
            rw [hs]; unfold searchPayload; exact isPrefixOf_append _ _
      · refine ⟨lit "IMAGE_CAPTURE_TRIGGERED", ?_, Or.inr (Or.inr (Or.inl rfl))⟩
        simp [execute, h, show (lit "capture_image" ∈ VALID_TOOLS) from by decide,
          show ¬(lit "capture_image" = lit "get_time") from by decide,
          show ¬(lit "capture_image" = lit "search_web") from by decide]
    · cases hv : pyOr action_data.value action_data.query with
      | none =>
        refine ⟨lit "INVALID_ACTION", ?_, Or.inr (Or.inl rfl)⟩
        simp [execute, hmem, hv]
      | some v =>
        by_cases hcond : ¬v = [] ∧ 1 < (splitWs v).length
        · refine ⟨lit "CHAT_FALLBACK::" ++ v, ?_, Or.inl (isPrefixOf_append _ _)⟩
          simp [execute, hmem, hv, hcond]
        · refine ⟨lit "INVALID_ACTION", ?_, Or.inr (Or.inl rfl)⟩
          simp [execute, hmem, hv, hcond]

theorem C5_router_outcomes_witness :
    resolve_action (lit "frobnicate") = lit "frobnicate" := by
  have h := C5_router_outcomes (lit "frobnicate") baseEnv ⟨none, none, none⟩
  exact h.2.1 (by decide)

/-- C6 counterexample: with both the news query and the general text
query raising a collaborator I/O failure (and the client constructed
fine), _search_web on "robots news" returns SEARCH_EMPTY, not
SEARCH_ERROR — the claim says any collaborator/I-O failure yields
SearchError. -/
def envC6 : Env := { baseEnv with search_news := .error (), search_text := .error () }

theorem C6_counterexample :
    search_web envC6 (some (lit "robots news")) = lit "SEARCH_EMPTY"
    ∧ search_web envC6 (some (lit "robots news")) ≠ lit "SEARCH_ERROR" := by
  exact ⟨rfl, by decide⟩

/-- C6 (amended): _search_web tries the news query first (a non-empty
news result is returned as the payload), falls back to general text
search, returns SEARCH_EMPTY when both yield nothing — including when
the individual query attempts fail, since their exceptions are
swallowed — and returns SEARCH_ERROR exactly when the failure occurs
outside the two guarded query attempts (client import/construction).
It never raises: every outcome is the payload (title plus body snippet
truncated to 300 characters), SEARCH_EMPTY, or SEARCH_ERROR. -/
theorem C6_search_behavior (env : Env) (q : Option Str) :
    (env.search_ctor_fails = true → search_web env q = lit "SEARCH_ERROR")
    ∧ (∀ r rs, env.search_ctor_fails = false → env.search_news = .ok (r :: rs) →
        search_web env q = searchPayload q r)
    ∧ (∀ r rs, env.search_ctor_fails = false →
        (env.search_news = .ok [] ∨ env.search_news = .error ()) →
        env.search_text = .ok (r :: rs) →
        search_web env q = searchPayload q r)
    ∧ (env.search_ctor_fails = false →
        (env.search_news = .ok [] ∨ env.search_news = .error ()) →
        (env.search_text = .ok [] ∨ env.search_text = .error ()) →
        search_web env q = lit "SEARCH_EMPTY")
    ∧ (search_web env q = lit "SEARCH_ERROR" ∨ search_web env q = lit "SEARCH_EMPTY"
        ∨ ∃ r, search_web env q = searchPayload q r) := by
  refine ⟨?_, ?_, ?_, ?_, search_web_cases env q⟩
  · intro h; simp [search_web, h]
  · intro r rs hc hn; simp [search_web, hc, hn]
  · intro r rs hc hn ht
    rcases hn with hn | hn <;> simp [search_web, hc, hn, ht]
  · intro hc hn ht
    rcases hn with hn | hn <;> rcases ht with ht | ht <;>
      simp [search_web, hc, hn, ht]

def hitA : SearchHit := ⟨some (lit "Robot News"), some (lit "Robots are great."), none⟩

def envC6w : Env := { baseEnv with search_news := .ok [hitA] }

theorem C6_search_behavior_witness :
    search_web envC6w (some (lit "robots news"))
      = searchPayload (some (lit "robots news")) hitA := by
  have h := C6_search_behavior envC6w (some (lit "robots news"))
  exact h.2.1 hitA [] rfl rfl

-- ===========================================================================
-- services/wakeword_service.py — microphone arbiter
-- ===========================================================================

/-- Observable state of the background wake-word listener that the OSC
handlers touch: the paused flag, the recognition-result event used to
unblock the waiting loop, and whether a recognition attempt is active
on the recognizer (stopListening posted to the main thread stops it). -/
structure ListenerState where
  paused : Bool
  result_event : Bool
  recognizer_active : Bool
  deriving DecidableEq, Repr

/-- The /pause_listening handler (wakeword_service.py lines 81-91):
set paused, set the result event to unblock the current wait, and post
stopListening to the main thread (the stop runnable swallows errors). -/
def on_pause (s : ListenerState) : ListenerState :=
  { s with paused := true, result_event := true, recognizer_active := false }

/-- The /resume_listening handler (wakeword_service.py lines 93-97):
clear the paused flag. -/
def on_resume (s : ListenerState) : ListenerState :=
  { s with paused := false }

/-- C8: the arbiter pause and resume handlers are idempotent — from any
listener state, delivering pause_listening twice leaves the listener in
the same state as delivering it once, and likewise for
resume_listening. -/
theorem C8_arbiter_idempotent (s : ListenerState) :
    on_pause (on_pause s) = on_pause s
    ∧ on_resume (on_resume s) = on_resume s :=
  ⟨rfl, rfl⟩

-- ===========================================================================
-- main.py — AgentScreen.on_mic_press
-- ===========================================================================

/-- The AgentScreen fields touched by the mic-button handler
(main.py lines 215-243). tts_present / stt_present record whether the
corresponding engine initialised; tts_stop_requested / stt_stop_requested
record that stop was invoked on the engine; listen_thread_started
records that a listen-and-respond background task was spawned. -/
structure AgentState where
  current_state : BotState
  interrupted : Bool
  thinking_sound_active : Bool
  recording_active : Bool
  tts_queue : List Str
  tts_present : Bool
  tts_stop_requested : Bool
  stt_present : Bool
  stt_stop_requested : Bool
  listen_thread_started : Bool
  deriving DecidableEq, Repr

/-- AgentScreen.on_mic_press (main.py lines 215-243). The IDLE-state
update scheduled through the UI clock is sampled after the tick, i.e.
applied to the state. android models kivy.utils.platform == android. -/
def on_mic_press (android : Bool) (s : AgentState) : AgentState :=
  if s.current_state = BotState.speaking ∨ s.current_state = BotState.thinking then
    { s with interrupted := true
             thinking_sound_active := false
             tts_queue := []
             tts_stop_requested := if s.tts_present then true else s.tts_stop_requested
             current_state := BotState.idle }
  else if s.current_state = BotState.listening ∧ android then
    { s with recording_active := false
             stt_stop_requested := if s.stt_present then true else s.stt_stop_requested }
  else if s.current_state = BotState.idle then
    { s with recording_active := true
             current_state := BotState.listening
             listen_thread_started := true }
  else s

/-- C1: whenever the current state is THINKING or SPEAKING, a mic press
takes the interrupt branch: it sets the interrupt flag, clears the
speech queue, requests stop on any loaded synthesis engine, and the
state sampled one scheduling tick later is IDLE — for every queue
contents and every point of pipeline progress (all other fields are
arbitrary). -/
theorem C1_interrupt (android : Bool) (s : AgentState)
    (h : s.current_state = BotState.thinking ∨ s.current_state = BotState.speaking) :
    (on_mic_press android s).interrupted = true
    ∧ (on_mic_press android s).tts_queue = []
    ∧ (s.tts_present = true → (on_mic_press android s).tts_stop_requested = true)
    ∧ (on_mic_press android s).current_state = BotState.idle := by
  have hcond : s.current_state = BotState.speaking ∨ s.current_state = BotState.thinking :=
    h.symm
  rw [on_mic_press, if_pos hcond]
  refine ⟨rfl, rfl, ?_, rfl⟩
  intro hp
  simp [hp]

def busyAgent : AgentState :=
  { current_state := BotState.speaking
    interrupted := false
    thinking_sound_active := true
    recording_active := false
    tts_queue := [lit "Hello there!", lit "How can I help?"]
    tts_present := true
    tts_stop_requested := false
    stt_present := true
    stt_stop_requested := false
    listen_thread_started := false }

theorem C1_interrupt_witness :
    (on_mic_press false busyAgent).interrupted = true
    ∧ (on_mic_press false busyAgent).tts_queue = []
    ∧ (on_mic_press false busyAgent).tts_stop_requested = true
    ∧ (on_mic_press false busyAgent).current_state = BotState.idle := by
  have h := C1_interrupt false busyAgent (Or.inr rfl)
  exact ⟨h.1, h.2.1, h.2.2.1 rfl, h.2.2.2⟩

-- ===========================================================================
-- main.py — AgentScreen._detect_intent
-- ===========================================================================

/-- Ordered choice for backtracking matchers: the first success wins,
exactly the preference order of Python regex alternation. -/
def orO (a b : Option Str) : Option Str :=
  match a with
  | some r => some r
  | none => b

/-- Sequencing of a fixed literal inside a regex: match it, continue on
the rest. -/
def litM (w : Str) (k : Str → Option Str) (s : Str) : Option Str :=
  if w.isPrefixOf s then k (s.drop w.length) else none

/-- Backtracking consumption of between 1 and n characters of an
already-identified droppable run: the greedy engine tries the longest
first and gives characters back on failure of the continuation. -/
def tryDropsFrom (k : Str → Option Str) (s : Str) : Nat → Option Str
  | 0 => none
  | n + 1 => orO (k (s.drop (n + 1))) (tryDropsFrom k s n)

/-- Regex whitespace-plus (one or more), greedy with backtracking. -/
def wsPlus (k : Str → Option Str) (s : Str) : Option Str :=
  tryDropsFrom k s ((s.takeWhile isPyWs).length)

/-- Regex whitespace-star (zero or more), greedy with backtracking. -/
def wsStar (k : Str → Option Str) (s : Str) : Option Str :=
  orO (tryDropsFrom k s ((s.takeWhile isPyWs).length)) (k s)

/-- The final capture group, dot-plus with nothing following it: the
greedy engine captures the maximal non-empty run of non-newline
characters (dot does not match a newline without DOTALL). -/
def dotPlusEnd (s : Str) : Option Str :=
  match s.takeWhile (fun c => !(c == '\n')) with
  | [] => none
  | run => some run

/-- The optional qualifier group of the first search regex of
_detect_intent (main.py line 749): a for-, about- or news-(about-)
prefix, each followed by whitespace, or nothing; alternatives in
pattern order, the optional group preferring to match. -/
def pat1Opt (k : Str → Option Str) (s : Str) : Option Str :=
  orO (litM (lit "for") (wsPlus k) s)
    (orO (litM (lit "about") (wsPlus k) s)
      (orO (litM (lit "news")
             (wsPlus (fun s2 => orO (litM (lit "about") (wsPlus k) s2) (k s2))) s)
        (k s)))

/-- The first search regex of _detect_intent (main.py line 749),
anchored at one position: one of the keywords search, look up, find,
google; whitespace; the optional qualifier; the trailing capture. -/
def pat1At (s : Str) : Option Str :=
  orO (litM (lit "search") (wsPlus (pat1Opt dotPlusEnd)) s)
    (orO (litM (lit "look up") (wsPlus (pat1Opt dotPlusEnd)) s)
      (orO (litM (lit "find") (wsPlus (pat1Opt dotPlusEnd)) s)
        (litM (lit "google") (wsPlus (pat1Opt dotPlusEnd)) s)))

/-- The optional about/on tail and capture of the second search regex
(main.py line 750). -/
def pat2Trail (s : Str) : Option Str :=
  orO (litM (lit " about") (wsStar dotPlusEnd) s)
    (orO (litM (lit " on") (wsStar dotPlusEnd) s)
      (wsStar dotPlusEnd s))

/-- The topic alternation of the second search regex: happening,
the latest, the news. -/
def pat2Topic (s : Str) : Option Str :=
  orO (litM (lit "happening") pat2Trail s)
    (orO (litM (lit "the latest") pat2Trail s)
      (litM (lit "the news") pat2Trail s))

/-- The second search regex of _detect_intent (main.py line 750),
anchored at one position: what, then an apostrophe-s or space-is, a
literal space, the topic alternation, the optional tail, the capture. -/
def pat2At (s : Str) : Option Str :=
  litM (lit "what")
    (fun s1 =>
      orO (litM (lit "\x27s") (litM (lit " ") pat2Topic) s1)
        (litM (lit " is") (litM (lit " ") pat2Topic) s1)) s

/-- Python re.search: try the pattern at every position from the left;
the leftmost position with a successful match wins. -/
def reSearch (pAt : Str → Option Str) : Str → Option Str
  | [] => pAt []
  | c :: rest => orO (pAt (c :: rest)) (reSearch pAt rest)

/-- The fixed time-query trigger substrings (main.py lines 734-737). -/
def time_triggers : List Str :=
  [lit "what time", lit "what\x27s the time", lit "current time",
   lit "tell me the time", lit "time is it", lit "what is the time"]

/-- The fixed camera trigger substrings (main.py lines 741-744). -/
def camera_triggers : List Str :=
  [lit "take a photo", lit "take a picture", lit "take photo",
   lit "take picture", lit "capture image", lit "capture a photo",
   lit "what do you see", lit "look around"]

/-- m.group(1).strip().rstrip("?.") (main.py line 755). -/
def trimQuery (captured : Str) : Str := rstripQD (pyStrip captured)

/-- The second iteration of the search-pattern loop of _detect_intent:
reached when the first pattern did not produce an accepted query. After
it, the function returns None (main.py lines 752-759). -/
def detectPat2 (t : Str) : Option ActionData :=
  match reSearch pat2At t with
  | some captured =>
    if 2 < (trimQuery captured).length then
      some ⟨some (lit "search_web"), some (trimQuery captured), none⟩
    else none
  | none => none

/-- AgentScreen._detect_intent (main.py lines 729-759): lowercase and
strip the text, check the time triggers, then the camera triggers, then
the two search regexes in order, accepting a trimmed captured query of
length at least 3. -/
def detect_intent (text : Str) : Option ActionData :=
  let t := pyStrip (lowerL text)
  if time_triggers.any (fun tr => isSubOf tr t) then
    some ⟨some (lit "get_time"), some (lit "now"), none⟩
  else if camera_triggers.any (fun tr => isSubOf tr t) then
    some ⟨some (lit "capture_image"), some (lit "environment"), none⟩
  else
    match reSearch pat1At t with
    | some captured =>
      if 2 < (trimQuery captured).length then
        some ⟨some (lit "search_web"), some (trimQuery captured), none⟩
      else detectPat2 t
    | none => detectPat2 t

/-- A non-alphanumeric, non-whitespace character — used only to state
what the claim calls surrounding punctuation. -/
def isPunctChar (c : Char) : Bool := !(c.isAlphanum || isPyWs c)

/-- Modelled from the claim words, for comparison only: a query trimmed
of surrounding punctuation has punctuation characters removed from both
ends. -/
def specTrimSurroundingPunct (s : Str) : Str :=
  ((s.dropWhile isPunctChar).reverse.dropWhile isPunctChar).reverse

/-- C7 counterexample: on "search for robots!" the first search regex
captures "robots!", and the detector returns it with the trailing
exclamation mark intact — rstrip only removes question marks and
periods, so the value is not trimmed of surrounding punctuation as the
claim states. -/
theorem C7_counterexample :
    detect_intent (lit "search for robots!")
      = some ⟨some (lit "search_web"), some (lit "robots!"), none⟩
    ∧ lit "robots!" ≠ specTrimSurroundingPunct (lit "robots!") := by
  exact ⟨by decide, by decide⟩

/-- C7 (amended): for every user text whose lowercased stripped form is
not caught by a time or camera trigger, if one of the two search
regexes matches, the captured query fragment is trimmed of surrounding
whitespace and of trailing question marks and periods only (other
punctuation, including leading punctuation, is kept); a trimmed query
shorter than 3 characters is rejected by that pattern — the next
pattern is still tried, and after the second pattern the detector
yields no search intent — and otherwise the detector returns the
search_web action with the trimmed query as value. -/
theorem C7_search_intent (text : Str)
    (hTime : time_triggers.any (fun tr => isSubOf tr (pyStrip (lowerL text))) = false)
    (hCam : camera_triggers.any (fun tr => isSubOf tr (pyStrip (lowerL text))) = false) :
    (∀ c, reSearch pat1At (pyStrip (lowerL text)) = some c →
        2 < (trimQuery c).length →
        detect_intent text = some ⟨some (lit "search_web"), some (trimQuery c), none⟩)
    ∧ (∀ c, reSearch pat1At (pyStrip (lowerL text)) = some c →
        (trimQuery c).length ≤ 2 →
        detect_intent text = detectPat2 (pyStrip (lowerL text)))
    ∧ (reSearch pat1At (pyStrip (lowerL text)) = none →
        detect_intent text = detectPat2 (pyStrip (lowerL text)))
    ∧ (∀ c, reSearch pat2At (pyStrip (lowerL text)) = some c →
        2 < (trimQuery c).length →
        detectPat2 (pyStrip (lowerL text))
          = some ⟨some (lit "search_web"), some (trimQuery c), none⟩)
    ∧ (∀ c, reSearch pat2At (pyStrip (lowerL text)) = some c →
        (trimQuery c).length ≤ 2 →
        detectPat2 (pyStrip (lowerL text)) = none)
    ∧ (reSearch pat2At (pyStrip (lowerL text)) = none →
        detectPat2 (pyStrip (lowerL text)) = none) := by
  refine ⟨?_, ?_, ?_, ?_, ?_, ?_⟩
  · intro c h1 hlen
    simp [detect_intent, hTime, hCam, h1, hlen]
  · intro c h1 hlen
    simp [detect_intent, hTime, hCam, h1,
      show ¬ 2 < (trimQuery c).length from by omega]
  · intro h1
    simp [detect_intent, hTime, hCam, h1]
  · intro c h2 hlen
    simp [detectPat2, h2, hlen]
  · intro c h2 hlen
    simp [detectPat2, h2, show ¬ 2 < (trimQuery c).length from by omega]
  · intro h2
    simp [detectPat2, h2]

theorem C7_search_intent_witness :
    detect_intent (lit "Search for robot news")
      = some ⟨some (lit "search_web"), some (lit "robot news"), none⟩ := by
  have h := C7_search_intent (lit "Search for robot news") (by decide) (by decide)
  exact h.1 (lit "robot news") (by decide) (by decide)

-- ===========================================================================
-- main.py — AgentScreen.chat_and_respond and the streaming pipeline
-- ===========================================================================

/-- The turn-visible state threaded through chat_and_respond
(main.py lines 487-599) and its helpers. tts_enqueued is the sequence
of utterances handed to the speech queue during the turn, in order (the
queue worker drains concurrently, so the model records enqueue events);
saved is what save_chat_history wrote, if called; llm_called records a
language-model invocation; errored records the turn-level exception
branch; the last three fields are the streaming-loop locals. -/
structure ChatSt where
  bot_state : BotState
  tts_enqueued : List Str
  session_memory : List Turn
  permanent_memory : List Turn
  saved : Option (List Turn)
  thinking_sound : Bool
  llm_called : Bool
  errored : Bool
  full_response : Str
  sentence_buffer : Str
  is_action_mode : Bool
  deriving DecidableEq, Repr

/-- AgentScreen._speak_text (main.py lines 690-693): append the text to
the TTS queue, non-blocking. -/
def speak_text (st : ChatSt) (t : Str) : ChatSt :=
  { st with tts_enqueued := st.tts_enqueued ++ [t] }

/-- AgentScreen._speak_response (main.py lines 655-660): stop the
thinking ambience, enter SPEAKING, show and enqueue the text. -/
def speak_response (st : ChatSt) (t : Str) : ChatSt :=
  speak_text { st with thinking_sound := false, bot_state := BotState.speaking } t

/-- One iteration of the streaming for-loop of chat_and_respond
(main.py lines 549-575), processing one stream chunk: detect the
structured-output markers on the chunk, absorb silently in action mode,
otherwise accumulate the sentence buffer and flush it to the speech
queue on sentence-terminating punctuation when it holds an
alphanumeric character. -/
def consumeChunk (st : ChatSt) (content : Str) : ChatSt :=
  let st0 := { st with full_response := st.full_response ++ content }
  if isSubOf (lit "\x7b\"") content || isSubOf (lit "action:") (lowerL content) then
    { st0 with is_action_mode := true, thinking_sound := false }
  else if st.is_action_mode then
    st0
  else
    let st1 := { st0 with thinking_sound := false, bot_state := BotState.speaking }
    let buf := st.sentence_buffer ++ content
    if hasPunct content then
      let clean := pyStrip buf
      if (!clean.isEmpty) && hasAlnum clean then
        { (speak_text st1 clean) with sentence_buffer := [] }
      else
        { st1 with sentence_buffer := [] }
    else
      { st1 with sentence_buffer := buf }

/-- The streaming for-loop (main.py lines 549-575): consume chunks in
order; if the interrupt flag is observed set before chunk i, break out
and consume nothing further. -/
def runStream (intr : Nat → Bool) : Nat → ChatSt → List Str → ChatSt
  | _, st, [] => st
  | i, st, c :: cs =>
    if intr i then st else runStream intr (i + 1) (consumeChunk st c) cs

def lbrace : Char := Char.ofNat 123

def rbrace : Char := Char.ofNat 125

/-- The suffix of a string up to and including its last right brace. -/
def upToLastRBrace (s : Str) : Str :=
  (s.reverse.dropWhile (fun c => !(c == rbrace))).reverse

/-- The span matched by the greedy DOTALL brace regex of _extract_json
(main.py line 722): from the first left brace through the last right
brace after it; none when no such span exists. A later left brace
cannot start a match when the first one has no right brace after it. -/
def braceSpan : Str → Option Str
  | [] => none
  | c :: rest =>
    if c == lbrace then
      if rest.contains rbrace then some (c :: upToLastRBrace rest) else none
    else braceSpan rest

/-- AgentScreen._extract_json (main.py lines 719-727): extract the brace
span and hand it to the standard JSON parser (a collaborator, env.loads,
which also models the parse-failure path of the surrounding handler). -/
def extract_json (env : Env) (s : Str) : Option ActionData :=
  match braceSpan s with
  | some m => env.loads m
  | none => none

/-- AgentScreen._handle_tool_result (main.py lines 601-653): dispatch on
the router outcome; every non-falsy outcome speaks a response, the raw
outcome after a non-streaming summary completion when the model is
loaded. -/
def handle_tool_result (env : Env) (st : ChatSt) (result : Option Str)
    (original_text : Str) : ChatSt :=
  match result with
  | none => st
  | some r =>
    if r.isEmpty then st
    else if (lit "CHAT_FALLBACK::").isPrefixOf r then
      let chat_text := r.drop (lit "CHAT_FALLBACK::").length
      let st1 := speak_response { st with thinking_sound := false } chat_text
      { st1 with session_memory := st1.session_memory ++ [(⟨Role.assistant, chat_text⟩ : Turn)] }
    else if r = lit "IMAGE_CAPTURE_TRIGGERED" then
      let st1 := { st with bot_state := BotState.capturing }
      if env.camera_available then
        match env.camera_result with
        | some _ =>
          let st2 := speak_response st1
            (lit "I captured an image, but I can\x27t analyze it yet. Vision support is coming soon!")
          { st2 with session_memory :=
              st2.session_memory ++ [(⟨Role.assistant, lit "I captured an image."⟩ : Turn)] }
        | none => speak_response st1 (lit "I couldn\x27t capture an image.")
      else speak_response st1 (lit "Camera not available.")
    else if r = lit "INVALID_ACTION" then
      speak_response st (lit "I am not sure how to do that.")
    else if r = lit "SEARCH_EMPTY" then
      speak_response st (lit "I searched, but I couldn\x27t find any news about that.")
    else if r = lit "SEARCH_ERROR" then
      speak_response st (lit "I cannot reach the internet right now.")
    else
      if env.llm_loaded then
        let st1 := { st with bot_state := BotState.thinking }
        let final_text := env.summarize r original_text
        let st2 := speak_response { st1 with llm_called := true } final_text
        { st2 with session_memory :=
            st2.session_memory ++ [(⟨Role.assistant, final_text⟩ : Turn)] }
      else
        speak_response st r

/-- The code after the streaming loop (main.py lines 577-589): in action
mode, extract and route the action, speaking the unsure fallback on
extraction failure; otherwise flush a remaining speakable sentence
buffer and append the assistant turn to session memory. -/
def finishStream (env : Env) (st : ChatSt) (original_text : Str) : ChatSt :=
  if st.is_action_mode then
    match extract_json env st.full_response with
    | some action_data =>
      handle_tool_result env st (execute env action_data) original_text
    | none =>
      speak_response st (lit "I\x27m not sure what to do with that.")
  else
    let st1 :=
      if (!(pyStrip st.sentence_buffer).isEmpty) && hasAlnum st.sentence_buffer then
        speak_text st (pyStrip st.sentence_buffer)
      else st
    { st1 with session_memory :=
        st1.session_memory ++ [(⟨Role.assistant, st.full_response⟩ : Turn)] }

/-- AgentScreen.chat_and_respond (main.py lines 487-599): the reset
short-circuit, the THINKING transition and user-turn append, the
missing-model placeholder, the pre-model intent shortcut, and otherwise
the streaming pipeline followed by the end-of-stream handling and the
return to IDLE after the speech queue drains. The image path argument
only shapes the prompt sent to the model collaborator. llm_raises
models the turn-level exception branch (ERROR, then IDLE after a fixed
delay). -/
def chat_and_respond (env : Env) (st : ChatSt) (text : Str)
    (img_path : Option Str) : ChatSt :=
  if isSubOf (lit "forget everything") (lowerL text)
      || isSubOf (lit "reset memory") (lowerL text) then
    let perm : List Turn := [⟨Role.system, env.system_prompt⟩]
    let st1 := { st with session_memory := []
                         permanent_memory := perm
                         saved := save_chat_history perm [] }
    { (speak_text st1 (lit "Okay. Memory wiped.")) with bot_state := BotState.idle }
  else
    let st1 := { st with bot_state := BotState.thinking }
    let st2 := { st1 with
      session_memory := st1.session_memory ++ [(⟨Role.user, text⟩ : Turn)]
      thinking_sound := true }
    if !env.llm_loaded then
      let st3 := { st2 with thinking_sound := false, bot_state := BotState.speaking }
      let st4 := speak_text st3
        (lit "Sorry, the language model isn\x27t loaded yet. Please check that a model file is available and try again.")
      { st4 with bot_state := BotState.idle }
    else
      match detect_intent text with
      | some action_data =>
        let st3 := { st2 with thinking_sound := false }
        let st4 := handle_tool_result env st3 (execute env action_data) text
        { st4 with bot_state := BotState.idle }
      | none =>
        if env.llm_raises then
          { st2 with llm_called := true, errored := true, bot_state := BotState.idle }
        else
          let st3 := runStream env.intr 0 { st2 with llm_called := true } env.stream
          let _ := img_path
          { (finishStream env st3 text) with bot_state := BotState.idle }

/-- The turn state at entry of a fresh conversation turn. -/
def chatInit : ChatSt :=
  { bot_state := BotState.idle
    tts_enqueued := []
    session_memory := []
    permanent_memory := [⟨Role.system, lit "You are a helpful AI assistant."⟩]
    saved := none
    thinking_sound := false
    llm_called := false
    errored := false
    full_response := []
    sentence_buffer := []
    is_action_mode := false }

-- ===========================================================================
-- Lemmas about the flush condition and action mode
-- ===========================================================================

theorem ws_not_alnum (c : Char) (h : isPyWs c = true) : c.isAlphanum = false := by
  simp [isPyWs] at h
  rcases h with ((((h | h) | h) | h) | h) | h <;> subst h <;> decide

theorem any_alnum_dropWhile (l : Str) :
    (l.dropWhile isPyWs).any Char.isAlphanum = l.any Char.isAlphanum := by
  induction l with
  | nil => rfl
  | cons c cs ih =>
    by_cases h : isPyWs c = true
    · have hna := ws_not_alnum c h
      simp [List.dropWhile, h, hna, ih]
    · simp [List.dropWhile, h]

theorem hasAlnum_pyStrip (l : Str) : hasAlnum (pyStrip l) = hasAlnum l := by
  simp [hasAlnum, pyStrip, List.any_reverse, any_alnum_dropWhile]

theorem pyStrip_not_nil_of_alnum (l : Str) (h : hasAlnum l = true) :
    (pyStrip l).isEmpty = false := by
  have h2 : hasAlnum (pyStrip l) = true := by rw [hasAlnum_pyStrip]; exact h
  cases hp : pyStrip l with
  | nil => rw [hp] at h2; simp [hasAlnum] at h2
  | cons a as => simp

/-- The code's flush condition — the stripped buffer is non-empty and
holds an alphanumeric character — is equivalent to the buffer holding
an alphanumeric character. -/
theorem flush_cond (buf : Str) :
    ((!(pyStrip buf).isEmpty) && hasAlnum (pyStrip buf)) = hasAlnum buf := by
  cases h : hasAlnum buf with
  | false =>
    have h2 : hasAlnum (pyStrip buf) = false := by rw [hasAlnum_pyStrip]; exact h
    simp [h2]
  | true =>
    have h2 : hasAlnum (pyStrip buf) = true := by rw [hasAlnum_pyStrip]; exact h
    simp [h2, pyStrip_not_nil_of_alnum buf h]

theorem prefixOf_trans {a b c : Str} (h1 : a.isPrefixOf b = true)
    (h2 : b.isPrefixOf c = true) : a.isPrefixOf c = true := by
  rw [List.isPrefixOf_iff_prefix] at h1 h2 ⊢
  exact h1.trans h2

theorem isSubOf_of_isPrefixOf {a b : Str} (h : a.isPrefixOf b = true) :
    isSubOf a b = true := by
  cases b with
  | nil =>
    have ha : a = [] := List.prefix_nil.mp (List.isPrefixOf_iff_prefix.mp h)
    subst ha; rfl
  | cons x xs => simp [isSubOf, h]

/-- A chunk containing the structured-output opener enters action mode
and adds nothing to the speech queue. -/
theorem consumeChunk_marker (st : ChatSt) (c : Str)
    (h : isSubOf (lit "\x7b\"") c = true) :
    (consumeChunk st c).tts_enqueued = st.tts_enqueued
    ∧ (consumeChunk st c).is_action_mode = true := by
  simp [consumeChunk, h]

/-- In action mode, consuming a chunk leaves the speech queue unchanged
and stays in action mode. -/
theorem consumeChunk_action_mode (st : ChatSt) (c : Str)
    (hm : st.is_action_mode = true) :
    (consumeChunk st c).tts_enqueued = st.tts_enqueued
    ∧ (consumeChunk st c).is_action_mode = true := by
  unfold consumeChunk
  by_cases h1 : (isSubOf (lit "\x7b\"") c || isSubOf (lit "action:") (lowerL c)) = true
  · simp [h1]
  · simp [h1, hm]

/-- Once in action mode, the rest of the stream adds nothing to the
speech queue. -/
theorem runStream_action_quiet (intr : Nat → Bool) (cs : List Str) :
    ∀ (i : Nat) (st : ChatSt), st.is_action_mode = true →
      (runStream intr i st cs).tts_enqueued = st.tts_enqueued := by
  induction cs with
  | nil => intro i st hm; rfl
  | cons c rest ih =>
    intro i st hm
    unfold runStream
    by_cases hi : intr i = true
    · rw [if_pos hi]
    · rw [if_neg hi]
      have hc := consumeChunk_action_mode st c hm
      rw [ih (i + 1) (consumeChunk st c) hc.2, hc.1]

-- ===========================================================================
-- C2, C3, C4
-- ===========================================================================

/-- C2: for every user text containing the case-insensitive substring
"forget everything" or "reset memory", processing the turn leaves
session memory empty and permanent memory equal to exactly one system
turn carrying the system prompt, persists exactly that one-turn state,
reaches IDLE, and performs no language-model call (llm_called is
untouched). -/
theorem C2_reset (env : Env) (st : ChatSt) (text : Str) (img_path : Option Str)
    (h : isSubOf (lit "forget everything") (lowerL text) = true
       ∨ isSubOf (lit "reset memory") (lowerL text) = true) :
    (chat_and_respond env st text img_path).session_memory = []
    ∧ (chat_and_respond env st text img_path).permanent_memory
        = [⟨Role.system, env.system_prompt⟩]
    ∧ (chat_and_respond env st text img_path).saved
        = some [⟨Role.system, env.system_prompt⟩]
    ∧ (chat_and_respond env st text img_path).bot_state = BotState.idle
    ∧ (chat_and_respond env st text img_path).llm_called = st.llm_called := by
  have hcond : (isSubOf (lit "forget everything") (lowerL text)
      || isSubOf (lit "reset memory") (lowerL text)) = true := by
    rcases h with h | h <;> simp [h]
  simp [chat_and_respond, hcond, speak_text, save_chat_history]

theorem C2_reset_witness :
    (chat_and_respond baseEnv chatInit (lit "Please forget everything now")
        none).session_memory = []
    ∧ (chat_and_respond baseEnv chatInit (lit "Please forget everything now")
        none).permanent_memory = [⟨Role.system, baseEnv.system_prompt⟩]
    ∧ (chat_and_respond baseEnv chatInit (lit "Please forget everything now")
        none).saved = some [⟨Role.system, baseEnv.system_prompt⟩]
    ∧ (chat_and_respond baseEnv chatInit (lit "Please forget everything now")
        none).bot_state = BotState.idle
    ∧ (chat_and_respond baseEnv chatInit (lit "Please forget everything now")
        none).llm_called = false :=
  C2_reset baseEnv chatInit (lit "Please forget everything now") none
    (Or.inl (by decide))

/-- C3: the token stream Hi, !, How, are, you, ? with no action markers
and the interrupt flag clear enqueues exactly the two utterances Hi!
and How are you?, in that order; and in general, on a chunk carrying no
action marker while not in action mode, a sentence is flushed to the
speech queue exactly when the chunk contains sentence-terminating
punctuation or a newline and the accumulated buffer (including the
chunk) contains at least one alphanumeric character — the stripped
buffer is enqueued, and otherwise the queue is unchanged. -/
theorem C3_segmentation :
    (runStream (fun _ => false) 0 chatInit
        [lit "Hi", lit "!", lit " How", lit " are", lit " you", lit "?"]).tts_enqueued
      = [lit "Hi!", lit "How are you?"]
    ∧ ∀ (st : ChatSt) (c : Str), st.is_action_mode = false →
        isSubOf (lit "\x7b\"") c = false →
        isSubOf (lit "action:") (lowerL c) = false →
        (consumeChunk st c).tts_enqueued =
          (if hasPunct c && hasAlnum (st.sentence_buffer ++ c)
           then st.tts_enqueued ++ [pyStrip (st.sentence_buffer ++ c)]
           else st.tts_enqueued) := by
  constructor
  · decide
  · intro st c hm h1 h2
    have hcond : (isSubOf (lit "\x7b\"") c
        || isSubOf (lit "action:") (lowerL c)) = false := by
      rw [h1, h2]; rfl
    simp only [consumeChunk, hcond, Bool.false_eq_true, if_false, hm]
    by_cases hp : hasPunct c = true
    · rw [if_pos hp]
      rw [flush_cond (st.sentence_buffer ++ c)]
      by_cases ha : hasAlnum (st.sentence_buffer ++ c) = true
      · simp [ha, speak_text, hp]
      · simp only [Bool.not_eq_true] at ha
        simp [ha, hp]
    · simp only [Bool.not_eq_true] at hp
      simp [hp]

theorem C3_segmentation_witness :
    (consumeChunk chatInit (lit "ok.")).tts_enqueued = [lit "ok."] := by
  have h := C3_segmentation.2 chatInit (lit "ok.") rfl (by decide) (by decide)
  rw [h]
  decide

/-- C4 counterexample: for the stream whose single chunk is the
structured opener (no closing brace), end-of-stream handling fails to
extract a JSON object and enqueues the unsure fallback — an utterance
is added to the speech queue during end-of-stream handling,
contradicting the claim that no step of stream consumption or
end-of-stream handling adds one. The user text hello triggers neither
the reset shortcut nor the pre-model intent detector. -/
def envC4 : Env := { baseEnv with stream := [lit "\x7b\"action"] }

theorem C4_counterexample :
    (chat_and_respond envC4 chatInit (lit "hello") none).tts_enqueued
      = [lit "I\x27m not sure what to do with that."]
    ∧ (chat_and_respond envC4 chatInit (lit "hello") none).tts_enqueued ≠ [] :=
  ⟨by decide, by decide⟩

/-- C4 (amended): for every token stream whose first chunk starts with
the structured opener, action mode is entered on the first token and
stream consumption never enqueues speech: under any interrupt schedule
and any starting point with an empty queue, after consuming any prefix
of the stream the queue is still empty. End-of-stream handling, by
contrast, routes the parsed action or speaks a fixed fallback (see the
counterexample) — but never any streamed sentence. -/
theorem C4_no_stream_speech (intr : Nat → Bool) (st : ChatSt)
    (c0 : Str) (cs : List Str)
    (hpre : (lit "\x7b\"action").isPrefixOf c0 = true)
    (hq : st.tts_enqueued = []) :
    ∀ n, (runStream intr 0 st (List.take n (c0 :: cs))).tts_enqueued = [] := by
  have hsub : isSubOf (lit "\x7b\"") c0 = true :=
    isSubOf_of_isPrefixOf (prefixOf_trans (by decide) hpre)
  intro n
  cases n with
  | zero => rw [List.take_zero]; exact hq
  | succ m =>
    rw [List.take_succ_cons]
    unfold runStream
    by_cases hi : intr 0 = true
    · rw [if_pos hi]; exact hq
    · rw [if_neg hi]
      have hc := consumeChunk_marker st c0 hsub
      rw [runStream_action_quiet intr (List.take m cs) 1 (consumeChunk st c0) hc.2,
        hc.1]
      exact hq

theorem C4_no_stream_speech_witness :
    (runStream (fun _ => false) 0 chatInit
        (List.take 2 [lit "\x7b\"action\": \"get_time\"", lit " done now!\x7d"])).tts_enqueued
      = [] := by
  have h := C4_no_stream_speech (fun _ => false) chatInit
    (lit "\x7b\"action\": \"get_time\"") [lit " done now!\x7d"] (by decide) rfl
  exact h 2
